import Mathlib

/-!
Shallow embedding of the churn-analytics core of the edelweiss-churn
repository (src/churn_analytics.py, src/sales_analytics.py, src/app.py)
and proofs about it.

Modelling conventions:
* a pandas timestamp is a day number (`Int`); `none` models `NaT`;
* a dataframe is a `List Row`; column operations become list operations;
* float rates are modelled as exact rationals (`ℚ`); the presentation-time
  `round(_, 1)` is omitted, matching the spec that all rounding happens at
  presentation time only;
* pandas comparisons involving `NaT` are `False`, which the option matches
  below reproduce case by case.
-/

namespace EdelweissChurn

/-- The fixed list of analyzable product groups
(`RELEVANT_GROUPS`, churn_analytics.py lines 11-14). -/
def RELEVANT_GROUPS : List String :=
  ["Firmendaten Manager", "Website", "SEO", "Google Ads",
   "Postings", "Superkombis", "Social Media Werbeanzeigen"]

/-- Reseller customer numbers
(`RESELLER_CUSTOMERS`, churn_analytics.py line 17). -/
def RESELLER_CUSTOMERS : List Int := [1902101, 1909143, 1903121, 1905146, 1911102]

/-- One contract row after the preprocessing of `churn_auswerten_v2`
(app.py lines 392-399): customer number coerced to an integer, product
group mapped, start and end dates parsed (`none` models an unparseable
or missing date, pandas `NaT`). -/
structure Row where
  kundennummer : Int
  productGroup : String
  beginn : Option Int
  ende : Option Int
  zugewiesenAn : Option String
deriving DecidableEq, Repr

/-- A churn event emitted by `analyze_customer_journey`
(churn_analytics.py lines 100-112). -/
structure ChurnEvent where
  kundennummer : Int
  productGroup : String
  churnDatum : Int
  typ : String
deriving DecidableEq, Repr

/-- A reactivation event emitted by `analyze_customer_journey`
(churn_analytics.py lines 91-98). -/
structure Reactivation where
  kundennummer : Int
  productGroup : String
  ende : Int
  neuerBeginn : Int
  lueckeTage : Int
  typ : String
deriving DecidableEq, Repr

/-- An event produced for one terminated contract: exactly one of the two
kinds (the if/else of churn_analytics.py lines 90-105). -/
inductive JEvent where
  | churn : ChurnEvent → JEvent
  | react : Reactivation → JEvent
deriving DecidableEq, Repr

/-- The churn rows among a list of events
(the `churn_events` accumulator list). -/
def churnOf (evs : List JEvent) : List ChurnEvent :=
  evs.filterMap fun e => match e with
    | .churn c => some c
    | .react _ => none

/-- The reactivation rows among a list of events
(the `reactivations` accumulator list). -/
def reactOf (evs : List JEvent) : List Reactivation :=
  evs.filterMap fun e => match e with
    | .churn _ => none
    | .react r => some r

/-- Membership of a customer number in the reseller list
(`df['Kundennummer'].isin(RESELLER_CUSTOMERS)`). -/
def isReseller (r : Row) : Bool := RESELLER_CUSTOMERS.contains r.kundennummer

/-- `~df['Kundennummer'].isin(RESELLER_CUSTOMERS)`
(churn_analytics.py line 67). -/
def nonReseller (r : Row) : Bool := !(RESELLER_CUSTOMERS.contains r.kundennummer)

/-- Minimum of a list of day numbers, `none` on the empty list
(pandas `Series.min`). -/
def minOpt : List Int → Option Int
  | [] => none
  | b :: bs =>
    match minOpt bs with
    | none => some b
    | some m => some (min b m)

/-- `future_contracts['Beginn'].min()`: the smallest start date among a
list of rows, skipping `NaT` as pandas `min` does. -/
def minStart (l : List Row) : Option Int := minOpt (l.filterMap fun r => r.beginn)

/-- The rows among `later` whose start date is strictly after `endDate`
(`customer_df['Beginn'] > end_date` restricted to positions after the
current one, churn_analytics.py lines 81-84; a `NaT` start compares
`False` in pandas). -/
def futureOf (later : List Row) (endDate : Int) : List Row :=
  later.filter fun r =>
    match r.beginn with
    | some b => decide (endDate < b)
    | none => false

/-- The verdict for one contract row inside a (customer, group) partition
(churn_analytics.py lines 77-112). `later` is the list of rows at later
positions of the sorted partition. A row with a `NaT` end date produces no
event (`continue`, line 78); otherwise exactly one event is produced. -/
def rowEvent (grace : Int) (kunde : Int) (group : String) (later : List Row)
    (row : Row) : Option JEvent :=
  match row.ende with
  | none => none
  | some endDate =>
    match minStart (futureOf later endDate) with
    | some nextStart =>
      let gapDays := nextStart - endDate
      if gapDays ≤ grace then
        some (.react ⟨kunde, group, endDate, nextStart, gapDays, "Reaktivierung"⟩)
      else
        some (.churn ⟨kunde, group, endDate, "Echte Kündigung (lange Pause)"⟩)
    | none =>
      some (.churn ⟨kunde, group, endDate, "Echte Kündigung (kein Folgevertrag)"⟩)

/-- The inner loop of `analyze_customer_journey` over one sorted
(customer, group) partition (churn_analytics.py lines 76-112): the row at
position `i` is classified against the rows at positions after `i`. -/
def processRows (grace : Int) (kunde : Int) (group : String) : List Row → List JEvent
  | [] => []
  | r :: rs =>
    match rowEvent grace kunde group rs r with
    | none => processRows grace kunde group rs
    | some e => e :: processRows grace kunde group rs

/-- Ordering of optional start dates used by the sort: pandas
`sort_values` puts `NaT` last. -/
def obLE : Option Int → Option Int → Bool
  | none, none => true
  | none, some _ => false
  | some _, none => true
  | some a, some b => decide (a ≤ b)

/-- Lexicographic row order of
`sort_values(['Kundennummer', 'ProductGroup', 'Beginn'])`
(churn_analytics.py line 68). The source does not fix a tie break for
equal keys; the embedding uses a stable insertion sort. -/
def rowLE (a b : Row) : Bool :=
  if a.kundennummer ≠ b.kundennummer then decide (a.kundennummer < b.kundennummer)
  else if a.productGroup ≠ b.productGroup then decide (a.productGroup < b.productGroup)
  else obLE a.beginn b.beginn

/-- Insert a row into a sorted list, keeping earlier rows first on ties. -/
def insertRow (a : Row) : List Row → List Row
  | [] => [a]
  | b :: bs => if rowLE a b then a :: b :: bs else b :: insertRow a bs

/-- Stable insertion sort realising the `sort_values` call. -/
def sortRows : List Row → List Row
  | [] => []
  | a :: as => insertRow a (sortRows as)

/-- The group-by key (churn_analytics.py line 73). -/
def keyOf (r : Row) : Int × String := (r.kundennummer, r.productGroup)

/-- The rows of one group-by partition, in their order in the sorted
frame. -/
def partitionOf (rows : List Row) (k : Int × String) : List Row :=
  rows.filter fun r => decide (keyOf r = k)

/-- The distinct group-by keys of the sorted frame. -/
def groupKeys (rows : List Row) : List (Int × String) :=
  (rows.map keyOf).dedup

/-- `analyze_customer_journey` (churn_analytics.py lines 62-114): drop
reseller rows, sort, then classify every terminated contract of every
(customer, group) partition; returns the churn-event table and the
reactivation table. -/
def analyze_customer_journey (df : List Row) (grace : Int) :
    List ChurnEvent × List Reactivation :=
  let dfSorted := sortRows (df.filter nonReseller)
  let evs := (groupKeys dfSorted).flatMap fun k =>
    processRows grace k.1 k.2 (partitionOf dfSorted k)
  (churnOf evs, reactOf evs)

/-- The active-contract test shared by all aggregators: started strictly
before `d` and (still open or ending on/after `d`). A `NaT` start makes
both pandas comparisons `False`. -/
def isActiveAt (r : Row) (d : Int) : Bool :=
  (match r.beginn with
   | some b => decide (b < d)
   | none => false) &&
  (match r.ende with
   | none => true
   | some e => decide (d ≤ e))

/-- Contract ended inside the window `[lo, hi]`
(`(Ende >= lo) & (Ende <= hi)`; `NaT` compares `False`). -/
def endedIn (r : Row) (lo hi : Int) : Bool :=
  match r.ende with
  | some e => decide (lo ≤ e) && decide (e ≤ hi)
  | none => false

/-- Contract ended on or after `lo` with no upper bound
(`Ende >= lo`; `NaT` compares `False`). -/
def endedFrom (r : Row) (lo : Int) : Bool :=
  match r.ende with
  | some e => decide (lo ≤ e)
  | none => false

/-- Number of distinct customer numbers among a list of rows
(`['Kundennummer'].nunique()`, and the customer-level active test of
churn_analytics.py lines 135-142, which adds a customer when at least one
of its contracts passes the row test). -/
def nuniqueKunden (rows : List Row) : Nat :=
  ((rows.map fun r => r.kundennummer).dedup).length

/-- Distinct customer numbers of the churn events of `group` whose date
lies in `[lo, hi]` (churn_analytics.py lines 150-154). -/
def churnedKundenIn (ce : List ChurnEvent) (group : String) (lo hi : Int) : Nat :=
  (((ce.filter fun c =>
      c.productGroup == group && decide (lo ≤ c.churnDatum) && decide (c.churnDatum ≤ hi)).map
        fun c => c.kundennummer).dedup).length

/-- Distinct customer numbers of the churn events of `group` whose date is
on or after `lo`, with no upper bound (churn_analytics.py lines 329-332). -/
def churnedKundenFrom (ce : List ChurnEvent) (group : String) (lo : Int) : Nat :=
  (((ce.filter fun c =>
      c.productGroup == group && decide (lo ≤ c.churnDatum)).map
        fun c => c.kundennummer).dedup).length

/-- One output row of `calculate_yearly_churn`
(churn_analytics.py lines 167-177). -/
structure YearGroupRecord where
  jahr : Int
  gruppe : String
  aktiveKunden : Nat
  aktiveReseller : Nat
  gesamtAktiv : Nat
  churnedKunden : Nat
  churnedReseller : Nat
  gesamtChurned : Nat
  jahresChurn : ℚ
deriving DecidableEq, Repr

/-- The body of the per-group loop of `calculate_yearly_churn`
(churn_analytics.py lines 126-177) for the window `[yStart, yEnd]`:
regular customers counted at customer level against the journey churn
events, resellers counted at contract level; rate guarded against a zero
denominator. The rate is kept exact; the source rounds it to one decimal
only when storing the record. -/
def yearGroupRecord (df : List Row) (ce : List ChurnEvent) (group : String)
    (year : Int) (yStart yEnd : Int) : YearGroupRecord :=
  let groupDf := df.filter fun r => r.productGroup == group
  let resellerDf := groupDf.filter isReseller
  let regularDf := groupDf.filter fun r => !(isReseller r)
  let activeKunden := nuniqueKunden (regularDf.filter fun r => isActiveAt r yStart)
  let resellerActive := (resellerDf.filter fun r => isActiveAt r yStart).length
  let regularChurned := churnedKundenIn ce group yStart yEnd
  let resellerChurned := (resellerDf.filter fun r => endedIn r yStart yEnd).length
  let totalActive := activeKunden + resellerActive
  let totalChurned := regularChurned + resellerChurned
  { jahr := year
    gruppe := group
    aktiveKunden := activeKunden
    aktiveReseller := resellerActive
    gesamtAktiv := totalActive
    churnedKunden := regularChurned
    churnedReseller := resellerChurned
    gesamtChurned := totalChurned
    jahresChurn :=
      if 0 < totalActive then (totalChurned : ℚ) / (totalActive : ℚ) * 100 else 0 }

/-- The rows `calculate_yearly_churn` emits for one year of its outer loop
(churn_analytics.py lines 122-177): groups with no rows are skipped
(`continue`, line 130). The outer loop supplies `yStart` as Jan 1 of the
year and `yEnd` as Dec 31 or today for the current year. -/
def yearly_churn_year (df : List Row) (ce : List ChurnEvent) (year : Int)
    (yStart yEnd : Int) : List YearGroupRecord :=
  RELEVANT_GROUPS.filterMap fun group =>
    if (df.filter fun r => r.productGroup == group).isEmpty then none
    else some (yearGroupRecord df ce group year yStart yEnd)

/-- One output row of `calculate_current_year_churn`
(churn_analytics.py lines 304-347). -/
structure CurrentYearRecord where
  produktgruppe : String
  aktiveKunden : Nat
  verluste : Nat
  churnRate : ℚ
deriving DecidableEq, Repr

/-- The body of the per-group loop of `calculate_current_year_churn`
(churn_analytics.py lines 312-347), `yStart` being Jan 1 of the current
year: the same active counts as the yearly loop, but the churned filters
carry no upper date bound (lines 329-336). -/
def currentYearGroupRecord (df : List Row) (ce : List ChurnEvent)
    (group : String) (yStart : Int) : CurrentYearRecord :=
  let groupDf := df.filter fun r => r.productGroup == group
  let resellerDf := groupDf.filter isReseller
  let regularDf := groupDf.filter fun r => !(isReseller r)
  let activeKunden := nuniqueKunden (regularDf.filter fun r => isActiveAt r yStart)
  let resellerActive := (resellerDf.filter fun r => isActiveAt r yStart).length
  let regularChurned := churnedKundenFrom ce group yStart
  let resellerChurned := (resellerDf.filter fun r => endedFrom r yStart).length
  let totalActive := activeKunden + resellerActive
  let totalChurned := regularChurned + resellerChurned
  { produktgruppe := group
    aktiveKunden := totalActive
    verluste := totalChurned
    churnRate :=
      if 0 < totalActive then (totalChurned : ℚ) / (totalActive : ℚ) * 100 else 0 }

/-- `calculate_current_year_churn` (churn_analytics.py lines 293-349):
unlike the yearly loop, a group with no rows produces an explicit zero row
(lines 303-310). -/
def calculate_current_year_churn (df : List Row) (ce : List ChurnEvent)
    (yStart : Int) : List CurrentYearRecord :=
  RELEVANT_GROUPS.map fun group =>
    if (df.filter fun r => r.productGroup == group).isEmpty then
      { produktgruppe := group, aktiveKunden := 0, verluste := 0, churnRate := 0 }
    else currentYearGroupRecord df ce group yStart

/-- The uncorrected monthly rate of `churn_auswerten_v2`
(app.py lines 419-421) for one product group and one month window:
contract-level counts, zero denominator guarded to `0.0`. -/
def monthlyRate (gdf : List Row) (startTs endTs : Int) : ℚ :=
  let active := gdf.filter fun r => isActiveAt r startTs
  let churned := gdf.filter fun r => endedIn r startTs endTs
  if 0 < active.length then (churned.length : ℚ) / (active.length : ℚ) * 100 else 0

/-- One output row of `calculate_waterfall_data`
(churn_analytics.py lines 219-225); `verluste` is stored negated
(`'Verluste': -total_churned`, line 223) and `ende` is the derived count
`start + new - total_churned` (line 217), which can be negative. -/
structure WaterfallRow where
  gruppe : String
  start : Nat
  neukunden : Nat
  verluste : Int
  ende : Int
deriving DecidableEq, Repr

/-- `calculate_waterfall_data` (churn_analytics.py lines 181-227) for the
window `[yStart, yEnd]`: start and new counts are distinct-customer counts
over all rows of the group (resellers included), churn combines distinct
journey-churned customers with reseller contract ends in the window. -/
def calculate_waterfall_data (df : List Row) (ce : List ChurnEvent)
    (yStart yEnd : Int) : List WaterfallRow :=
  RELEVANT_GROUPS.filterMap fun group =>
    let groupDf := df.filter fun r => r.productGroup == group
    if groupDf.isEmpty then none
    else
      let startCustomers := nuniqueKunden (groupDf.filter fun r => isActiveAt r yStart)
      let newCustomers := nuniqueKunden (groupDf.filter fun r =>
        match r.beginn with
        | some b => decide (yStart ≤ b) && decide (b ≤ yEnd)
        | none => false)
      let churnedCustomers := churnedKundenIn ce group yStart yEnd
      let resellerDf := groupDf.filter isReseller
      let resellerChurned := (resellerDf.filter fun r => endedIn r yStart yEnd).length
      let totalChurned := churnedCustomers + resellerChurned
      some
        { gruppe := group
          start := startCustomers
          neukunden := newCustomers
          verluste := -(totalChurned : Int)
          ende := (startCustomers : Int) + (newCustomers : Int) - (totalChurned : Int) }

/-- ASCII whitespace as stripped by pandas `str.strip`. -/
def isSpaceChar (c : Char) : Bool := c == ' ' || c == '\t' || c == '\n' || c == '\r'

/-- Remove leading and trailing whitespace from a character list. -/
def stripList (cs : List Char) : List Char :=
  ((cs.dropWhile isSpaceChar).reverse.dropWhile isSpaceChar).reverse

/-- `str.strip()`: trim whitespace at both ends. -/
def strip (s : String) : String := String.mk (stripList s.data)

/-- The salesperson of a row:
`df['Zugewiesen an'].fillna('Nicht zugewiesen').str.strip()`
(sales_analytics.py line 136). -/
def sellerOf (r : Row) : String :=
  strip
    (match r.zugewiesenAn with
     | some s => s
     | none => "Nicht zugewiesen")

/-- Threshold below which a salesperson is dropped from the extended
analysis (`MIN_ACTIVE_CUSTOMERS`, sales_analytics.py line 11). -/
def MIN_ACTIVE_CUSTOMERS : Nat := 50

/-- One row of the detailed performance table of
`analyze_sales_performance_extended`, restricted to the base churn metrics
(sales_analytics.py lines 178-190; the extended KPI columns are computed
after the threshold check and do not influence which salespeople appear). -/
structure SellerRecord where
  verkaeufer : String
  aktiveKunden : Nat
  neukunden : Nat
  verloreneKunden : Nat
  churnRate : ℚ
deriving DecidableEq, Repr

/-- The per-salesperson loop of `analyze_sales_performance_extended`
(sales_analytics.py lines 147-190), `yStart` being Jan 1 of the current
year: iterate the distinct salesperson labels, compute the distinct count
of active-at-year-start customers, and skip the salesperson entirely when
it is below `MIN_ACTIVE_CUSTOMERS` (lines 157-159). The summary and the
ranking are column selections over these same rows. -/
def analyze_sales_performance_extended (df : List Row) (yStart : Int) :
    List SellerRecord :=
  ((df.map sellerOf).dedup).filterMap fun v =>
    let vdf := df.filter fun r => sellerOf r == v
    let activeKunden := nuniqueKunden (vdf.filter fun r => isActiveAt r yStart)
    if activeKunden < MIN_ACTIVE_CUSTOMERS then none
    else
      let verlorene := nuniqueKunden (vdf.filter fun r => endedFrom r yStart)
      let neu := nuniqueKunden (vdf.filter fun r =>
        match r.beginn with
        | some b => decide (yStart ≤ b)
        | none => false)
      some
        { verkaeufer := v
          aktiveKunden := activeKunden
          neukunden := neu
          verloreneKunden := verlorene
          churnRate :=
            if 0 < activeKunden then (verlorene : ℚ) / (activeKunden : ℚ) * 100 else 0 }

/-- The rank `rank(ascending=False, method='min')` assigns to score `s`
within the score column (sales_analytics.py line 209): one plus the number
of strictly greater scores. -/
def performanceRankMin (scores : List ℚ) (s : ℚ) : Nat :=
  1 + (scores.filter fun t => decide (s < t)).length

/-- The whole `Rang` column
(`detailed_df['Performance-Score'].rank(ascending=False, method='min')`,
sales_analytics.py line 209). -/
def rangColumn (scores : List ℚ) : List Nat :=
  scores.map (performanceRankMin scores)

/-- The typed columns of one row after the preprocessing of
`churn_auswerten_v2` (app.py lines 395-399). -/
structure ParsedRow where
  kundennummer : Int
  beginn : Option Int
  ende : Option Int
deriving DecidableEq, Repr

/-- `pd.to_datetime(-, errors='coerce')` applied to one cell: a parse
failure becomes `NaT` instead of propagating (app.py lines 395-396). The
date parser itself is library code and stays abstract. -/
def coerceDate (parse : String → Except String Int) (s : String) : Option Int :=
  match parse s with
  | .ok d => some d
  | .error _ => none

/-- `pd.to_numeric(-, errors='coerce').fillna(0).astype(int)` applied to
one cell: a parse failure becomes `NaN`, which `fillna(0)` turns into the
sentinel `0` (app.py line 399). -/
def coerceKundennummer (parse : String → Except String Int) (s : String) : Int :=
  match parse s with
  | .ok n => n
  | .error _ => 0

/-- The column conversions of `churn_auswerten_v2` (app.py lines 395-399)
on the raw string cells of one row. A total function: no input aborts it. -/
def parseRowCols (parseDate parseNum : String → Except String Int)
    (rawKundennummer rawBeginn rawEnde : String) : ParsedRow :=
  { kundennummer := coerceKundennummer parseNum rawKundennummer
    beginn := coerceDate parseDate rawBeginn
    ende := coerceDate parseDate rawEnde }

/-- A date parser that fails on every input, exercising the coercion
paths of the preprocessing. -/
def failParse : String → Except String Int := fun _ => .error "unparseable"

/-- Concrete dataset for the rate-bound counterexample: one open contract
of customer 1 active at the window start, and two contracts of customers
2 and 3 that both start and end inside the window, so they churn without
having been active at the window start. -/
def dfC3 : List Row :=
  [⟨1, "Website", some (-10), none, none⟩,
   ⟨2, "Website", some 5, some 20, none⟩,
   ⟨3, "Website", some 6, some 21, none⟩]

/-- Concrete dataset for the current-year counterexample: one contract
active at `yStart = 0` whose recorded end date 365 lies after
`today = 180`. -/
def dfC7 : List Row := [⟨2, "Website", some (-5), some 365, none⟩]

/-- Concrete dataset for the current-year witness: one contract active at
`yStart = 0` ending at day 30, before `today = 180`. -/
def dfC7w : List Row := [⟨2, "Website", some (-5), some 30, none⟩]

/-- Concrete dataset for the waterfall witness: one open contract active
at the window start. -/
def dfC6 : List Row := [⟨1, "Website", some (-5), none, none⟩]

/-- Concrete dataset for the threshold witness: 50 distinct customers,
all with open contracts that started before `yStart = 0`, all assigned to
salesperson `A`. -/
def df50 : List Row :=
  (List.range 50).map fun i => ⟨(i : Int), "Website", some (-1), none, some "A"⟩

/-- Concrete dataset for the reactivation witness: customer 4 ends a
Website contract at day 10 and starts a new one at day 50, a gap of 40
days inside the default 90-day grace period. -/
def dfC10 : List Row :=
  [⟨4, "Website", some 0, some 10, none⟩,
   ⟨4, "Website", some 50, none, none⟩]

/-- Concrete datasets for the reseller-isolation witness: the first one
carries an extra contract row of reseller customer 1902101. -/
def dfC5a : List Row :=
  [⟨1902101, "Website", some 0, some 5, none⟩,
   ⟨7, "SEO", some 0, some 5, none⟩]

/-- The reseller-free version of `dfC5a`. -/
def dfC5b : List Row := [⟨7, "SEO", some 0, some 5, none⟩]

/-- Every journey event lands in exactly one of the two output tables. -/
lemma churnOf_reactOf_length (evs : List JEvent) :
    (churnOf evs).length + (reactOf evs).length = evs.length := by
  induction evs with
  | nil => rfl
  | cons e t ih =>
    cases e <;> simp only [churnOf, reactOf, List.filterMap_cons] at ih ⊢ <;>
      simp only [List.length_cons] <;> omega

/-- A row produces an event exactly when its end date is present. -/
lemma rowEvent_isSome (grace : Int) (kunde : Int) (group : String)
    (later : List Row) (r : Row) :
    (rowEvent grace kunde group later r).isSome = r.ende.isSome := by
  unfold rowEvent
  cases r.ende with
  | none => rfl
  | some d =>
    dsimp only
    cases minStart (futureOf later d) with
    | none => rfl
    | some m =>
      dsimp only
      split <;> rfl

/-- The partition loop produces one event per row with a present end
date. -/
lemma processRows_length (grace : Int) (kunde : Int) (group : String)
    (rows : List Row) :
    (processRows grace kunde group rows).length
      = (rows.filter fun r => r.ende.isSome).length := by
  induction rows with
  | nil => rfl
  | cons r rs ih =>
    have hs := rowEvent_isSome grace kunde group rs r
    unfold processRows
    cases h : rowEvent grace kunde group rs r with
    | none =>
      rw [h, Option.isSome_none] at hs
      rw [List.filter_cons, ← hs]
      simpa using ih
    | some e =>
      rw [h, Option.isSome_some] at hs
      rw [List.filter_cons, ← hs]
      simpa using ih

/-- Inserting keeps the list a permutation of pushing in front. -/
lemma insertRow_perm (a : Row) (l : List Row) :
    List.Perm (insertRow a l) (a :: l) := by
  induction l with
  | nil => exact List.Perm.refl _
  | cons b t ih =>
    unfold insertRow
    split
    · exact List.Perm.refl _
    · exact (ih.cons b).trans (List.Perm.swap a b t)

/-- The sort is a permutation of its input. -/
lemma sortRows_perm (l : List Row) : List.Perm (sortRows l) l := by
  induction l with
  | nil => exact List.Perm.refl _
  | cons a t ih => exact (insertRow_perm a (sortRows t)).trans (ih.cons a)

/-- Splitting a filtered count along a second predicate. -/
lemma filter_split_length (p q : Row → Bool) (l : List Row) :
    (l.filter fun r => p r && q r).length
        + (l.filter fun r => p r && !q r).length
      = (l.filter p).length := by
  induction l with
  | nil => rfl
  | cons a t ih =>
    cases hq : q a <;> cases hp : p a <;>
      simp [List.filter_cons, hq, hp] <;> omega

/-- Filtered counts over a list of disjoint partitions add up to the
filtered count of the whole list. -/
lemma sum_partition_count (p : Row → Bool) (keys : List (Int × String))
    (l : List Row) (hnd : keys.Nodup) (hcov : ∀ r ∈ l, keyOf r ∈ keys) :
    (keys.map fun k => ((partitionOf l k).filter p).length).sum
      = (l.filter p).length := by
  induction keys generalizing l with
  | nil =>
    have hl : l.filter p = [] := by
      refine List.eq_nil_iff_forall_not_mem.mpr fun r hr => ?_
      exact absurd (hcov r (List.mem_of_mem_filter hr)) (List.not_mem_nil _)
    simp [hl]
  | cons k ks ih =>
    have hkn : k ∉ ks := (List.nodup_cons.mp hnd).1
    have hnd2 : ks.Nodup := (List.nodup_cons.mp hnd).2
    have hres : ∀ k2 ∈ ks,
        partitionOf (l.filter fun r => !(decide (keyOf r = k))) k2
          = partitionOf l k2 := by
      intro k2 hk2
      unfold partitionOf
      rw [List.filter_filter]
      refine List.filter_congr fun r hr => ?_
      by_cases h : keyOf r = k2
      · have hk2k : ¬ (k2 = k) := fun heq => hkn (heq ▸ hk2)
        simp [h, hk2k]
      · simp [h]
    have hsum :
        (ks.map fun k2 => ((partitionOf l k2).filter p).length).sum
          = (ks.map fun k2 =>
              ((partitionOf (l.filter fun r => !(decide (keyOf r = k))) k2).filter p).length).sum := by
      refine congrArg _ (List.map_congr_left fun k2 hk2 => ?_)
      rw [hres k2 hk2]
    have hcov2 : ∀ r ∈ (l.filter fun r => !(decide (keyOf r = k))), keyOf r ∈ ks := by
      intro r hr
      have hrl : r ∈ l := List.mem_of_mem_filter hr
      have hne : keyOf r ≠ k := by simpa using List.of_mem_filter hr
      rcases List.mem_cons.mp (hcov r hrl) with h1 | h1
      · exact absurd h1 hne
      · exact h1
    rw [List.map_cons, List.sum_cons, hsum,
      ih (l.filter fun r => !(decide (keyOf r = k))) hnd2 hcov2]
    have hsplit := filter_split_length p (fun r => decide (keyOf r = k)) l
    simp only [partitionOf, List.filter_filter]
    exact hsplit

/-- C1: for every non-reseller (customer, product group) partition, each
contract row with a present end date produces exactly one event, either a
churn event or a reactivation event, and a row with a missing end date
produces none: globally, churn events and reactivations together number
exactly the non-reseller rows with a present end date, and the same count
identity holds inside every single partition processed by the journey
loop. -/
theorem c1_exactly_one_event_per_ended_contract (df : List Row) (grace : Int) :
    ((analyze_customer_journey df grace).1.length
        + (analyze_customer_journey df grace).2.length
      = ((df.filter nonReseller).filter fun r => r.ende.isSome).length)
    ∧ ∀ (kunde : Int) (group : String) (rows : List Row),
        (churnOf (processRows grace kunde group rows)).length
            + (reactOf (processRows grace kunde group rows)).length
          = (rows.filter fun r => r.ende.isSome).length := by
  constructor
  · unfold analyze_customer_journey
    dsimp only
    rw [churnOf_reactOf_length, List.length_flatMap]
    have hmap : ((groupKeys (sortRows (df.filter nonReseller))).map
          (List.length ∘ fun k =>
            processRows grace k.1 k.2 (partitionOf (sortRows (df.filter nonReseller)) k)))
        = (groupKeys (sortRows (df.filter nonReseller))).map fun k =>
            ((partitionOf (sortRows (df.filter nonReseller)) k).filter
              fun r => r.ende.isSome).length := by
      refine List.map_congr_left fun k hk => ?_
      simp only [Function.comp_apply]
      exact processRows_length grace k.1 k.2 _
    have hnd : (groupKeys (sortRows (df.filter nonReseller))).Nodup :=
      List.nodup_dedup _
    have hcov : ∀ r ∈ sortRows (df.filter nonReseller),
        keyOf r ∈ groupKeys (sortRows (df.filter nonReseller)) :=
      fun r hr => List.mem_dedup.mpr (List.mem_map_of_mem keyOf hr)
    rw [hmap, sum_partition_count _ _ _ hnd hcov]
    exact List.Perm.length_eq (List.Perm.filter _ (sortRows_perm _))
  · intro kunde group rows
    rw [churnOf_reactOf_length]
    exact processRows_length grace kunde group rows

/-- C2: when a terminated contract has at least one later-positioned
contract in its partition starting strictly after its end date, the gap to
the earliest such start decides the verdict: a gap of at most the grace
period yields the reactivation event, a gap of at least grace period plus
one yields the long-gap churn event; this holds for every grace period. -/
theorem c2_grace_period_boundary (grace kunde : Int) (group : String)
    (later : List Row) (row : Row) (endDate nextStart : Int)
    (he : row.ende = some endDate)
    (hmin : minStart (futureOf later endDate) = some nextStart) :
    (nextStart - endDate ≤ grace →
        rowEvent grace kunde group later row
          = some (.react ⟨kunde, group, endDate, nextStart, nextStart - endDate,
              "Reaktivierung"⟩))
    ∧ (grace + 1 ≤ nextStart - endDate →
        rowEvent grace kunde group later row
          = some (.churn ⟨kunde, group, endDate,
              "Echte Kündigung (lange Pause)"⟩)) := by
  unfold rowEvent
  rw [he]
  dsimp only
  rw [hmin]
  dsimp only
  constructor
  · intro h
    rw [if_pos h]
  · intro h
    rw [if_neg (by omega)]

/-- Witness for C2 at a concrete input: end at day 10, next start at day
50, grace period 90, gap 40: a reactivation event. -/
theorem c2_grace_period_boundary_witness :
    rowEvent 90 4 "Website" [⟨4, "Website", some 50, none, none⟩]
        ⟨4, "Website", some 0, some 10, none⟩
      = some (.react ⟨4, "Website", 10, 50, 50 - 10, "Reaktivierung"⟩) :=
  (c2_grace_period_boundary 90 4 "Website" [⟨4, "Website", some 50, none, none⟩]
    ⟨4, "Website", some 0, some 10, none⟩ 10 50 rfl (by decide)).1 (by decide)

/-- The minimum returned by `minOpt` is one of the list elements. -/
lemma minOpt_mem {l : List Int} {m : Int} (h : minOpt l = some m) : m ∈ l := by
  induction l generalizing m with
  | nil => simp [minOpt] at h
  | cons b bs ih =>
    unfold minOpt at h
    cases hm : minOpt bs with
    | none =>
      rw [hm] at h
      simp only [Option.some.injEq] at h
      subst h
      exact List.mem_cons_self b bs
    | some m2 =>
      rw [hm] at h
      simp only [Option.some.injEq] at h
      subst h
      rcases min_cases b m2 with ⟨heq, _⟩ | ⟨heq, _⟩
      · rw [heq]
        exact List.mem_cons_self b bs
      · rw [heq]
        exact List.mem_cons_of_mem b (ih hm)

/-- The minimum start date is the start date of one of the rows. -/
lemma minStart_mem {l : List Row} {m : Int} (h : minStart l = some m) :
    ∃ r ∈ l, r.beginn = some m := by
  have hm := minOpt_mem h
  simpa using List.mem_filterMap.mp hm

/-- What a reactivation verdict of the row classifier entails. -/
lemma rowEvent_react_spec {grace kunde : Int} {group : String}
    {later : List Row} {row : Row} {rv : Reactivation}
    (h : rowEvent grace kunde group later row = some (.react rv)) :
    row.ende = some rv.ende
    ∧ minStart (futureOf later rv.ende) = some rv.neuerBeginn
    ∧ rv.lueckeTage = rv.neuerBeginn - rv.ende
    ∧ rv.lueckeTage ≤ grace := by
  unfold rowEvent at h
  cases he : row.ende with
  | none =>
    rw [he] at h
    simp at h
  | some endDate =>
    rw [he] at h
    dsimp only at h
    cases hm : minStart (futureOf later endDate) with
    | none =>
      rw [hm] at h
      simp at h
    | some nextStart =>
      rw [hm] at h
      dsimp only at h
      split at h
      · rename_i hgap
        simp only [Option.some.injEq, JEvent.react.injEq] at h
        subst h
        exact ⟨rfl, hm, rfl, hgap⟩
      · simp at h

/-- Every reactivation produced inside one partition satisfies the gap
invariant. -/
lemma react_mem_processRows {grace kunde : Int} {group : String}
    {rows : List Row} {ev : Reactivation}
    (h : ev ∈ reactOf (processRows grace kunde group rows)) :
    ev.ende < ev.neuerBeginn ∧ ev.lueckeTage = ev.neuerBeginn - ev.ende
      ∧ ev.lueckeTage ≤ grace := by
  induction rows with
  | nil => simp [processRows, reactOf] at h
  | cons r rs ih =>
    unfold processRows at h
    cases hre : rowEvent grace kunde group rs r with
    | none =>
      rw [hre] at h
      exact ih h
    | some e =>
      rw [hre] at h
      cases e with
      | churn c =>
        simp only [reactOf, List.filterMap_cons] at h ih
        exact ih h
      | react rv =>
        simp only [reactOf, List.filterMap_cons] at h ih
        rcases List.mem_cons.mp h with h1 | h1
        · subst h1
          obtain ⟨hend, hmin, hgap, hle⟩ := rowEvent_react_spec hre
          obtain ⟨r2, hr2mem, hr2b⟩ := minStart_mem hmin
          have hpred := List.of_mem_filter hr2mem
          rw [hr2b] at hpred
          simp only [decide_eq_true_eq] at hpred
          exact ⟨hpred, hgap, hle⟩
        · exact ih h1

/-- C10: every reactivation event of the journey analysis has its new
start strictly after the old end, and a recorded gap between 0 and the
grace period, for every dataset and every grace period. -/
theorem c10_reactivation_invariant (df : List Row) (grace : Int)
    (ev : Reactivation) (hev : ev ∈ (analyze_customer_journey df grace).2) :
    ev.ende < ev.neuerBeginn ∧ 0 ≤ ev.lueckeTage ∧ ev.lueckeTage ≤ grace := by
  have hev2 : ∃ k ∈ groupKeys (sortRows (df.filter nonReseller)),
      ev ∈ reactOf (processRows grace k.1 k.2
        (partitionOf (sortRows (df.filter nonReseller)) k)) := by
    unfold analyze_customer_journey at hev
    dsimp only at hev
    unfold reactOf at hev ⊢
    rcases List.mem_filterMap.mp hev with ⟨e, he, hfe⟩
    rcases List.mem_flatMap.mp he with ⟨k, hk, hek⟩
    exact ⟨k, hk, List.mem_filterMap.mpr ⟨e, hek, hfe⟩⟩
  obtain ⟨k, _, hmem⟩ := hev2
  obtain ⟨hlt, hgap, hle⟩ := react_mem_processRows hmem
  refine ⟨hlt, ?_, hle⟩
  omega

/-- Witness for C10: on `dfC10` the produced reactivation event
(end 10, new start 50, gap 40) satisfies the invariant with grace 90. -/
theorem c10_reactivation_invariant_witness :
    (10 : Int) < 50 ∧ (0 : Int) ≤ 40 ∧ (40 : Int) ≤ 90 :=
  c10_reactivation_invariant dfC10 90
    ⟨4, "Website", 10, 50, 40, "Reaktivierung"⟩ (by decide)

/-- C5: the journey analysis only depends on the non-reseller rows, so
adding or removing rows whose customer number is in the reseller set
never changes the churn-event table or the reactivation table. -/
theorem c5_reseller_isolation (df1 df2 : List Row) (grace : Int)
    (h : df1.filter nonReseller = df2.filter nonReseller) :
    analyze_customer_journey df1 grace = analyze_customer_journey df2 grace := by
  unfold analyze_customer_journey
  rw [h]

/-- Witness for C5: adding a reseller contract row to a one-row dataset
leaves both journey tables unchanged. -/
theorem c5_reseller_isolation_witness :
    analyze_customer_journey dfC5a 90 = analyze_customer_journey dfC5b 90 :=
  c5_reseller_isolation dfC5a dfC5b 90 (by decide)

/-- The yearly rate field spelt out in terms of the count fields. -/
lemma yearGroupRecord_rate (df : List Row) (ce : List ChurnEvent)
    (group : String) (year yStart yEnd : Int) :
    (yearGroupRecord df ce group year yStart yEnd).jahresChurn
      = if 0 < (yearGroupRecord df ce group year yStart yEnd).gesamtAktiv
        then ((yearGroupRecord df ce group year yStart yEnd).gesamtChurned : ℚ)
              / ((yearGroupRecord df ce group year yStart yEnd).gesamtAktiv : ℚ) * 100
        else 0 := rfl

/-- The current-year rate field spelt out in terms of the count fields. -/
lemma currentYearGroupRecord_rate (df : List Row) (ce : List ChurnEvent)
    (group : String) (yStart : Int) :
    (currentYearGroupRecord df ce group yStart).churnRate
      = if 0 < (currentYearGroupRecord df ce group yStart).aktiveKunden
        then ((currentYearGroupRecord df ce group yStart).verluste : ℚ)
              / ((currentYearGroupRecord df ce group yStart).aktiveKunden : ℚ) * 100
        else 0 := rfl

/-- Counterexample to C3 as stated: on `dfC3` (journey churn events fed
into the yearly aggregation for window day 0 to day 100) the Website
group has one active customer but two churned customers, so the rate is
200, strictly above 100, although the active count is positive. -/
theorem c3_rate_bound_counterexample :
    0 < (yearGroupRecord dfC3 (analyze_customer_journey dfC3 90).1
          "Website" 2025 0 100).gesamtAktiv
    ∧ (yearGroupRecord dfC3 (analyze_customer_journey dfC3 90).1
        "Website" 2025 0 100).jahresChurn = 200
    ∧ ¬ ((yearGroupRecord dfC3 (analyze_customer_journey dfC3 90).1
          "Website" 2025 0 100).jahresChurn ≤ 100) := by
  have hA : (yearGroupRecord dfC3 (analyze_customer_journey dfC3 90).1
      "Website" 2025 0 100).gesamtAktiv = 1 := by decide
  have hC : (yearGroupRecord dfC3 (analyze_customer_journey dfC3 90).1
      "Website" 2025 0 100).gesamtChurned = 2 := by decide
  have hR : (yearGroupRecord dfC3 (analyze_customer_journey dfC3 90).1
      "Website" 2025 0 100).jahresChurn = 200 := by
    rw [yearGroupRecord_rate, hA, hC]
    norm_num
  refine ⟨by omega, hR, by rw [hR]; norm_num⟩

/-- C3 amended: every rate computed by the yearly, current-year and
monthly aggregators is nonnegative, and is exactly 0 when the
corresponding active count is 0 (the division is guarded, never an
error); the upper bound of 100 does not hold in general because churned
customers need not be active at the window start. -/
theorem c3_amended_rate_nonneg_and_zero_guard (df : List Row)
    (ce : List ChurnEvent) (group : String) (year yStart yEnd : Int)
    (gdf : List Row) (startTs endTs : Int) :
    (0 ≤ (yearGroupRecord df ce group year yStart yEnd).jahresChurn
      ∧ ((yearGroupRecord df ce group year yStart yEnd).gesamtAktiv = 0 →
          (yearGroupRecord df ce group year yStart yEnd).jahresChurn = 0))
    ∧ (0 ≤ (currentYearGroupRecord df ce group yStart).churnRate
      ∧ ((currentYearGroupRecord df ce group yStart).aktiveKunden = 0 →
          (currentYearGroupRecord df ce group yStart).churnRate = 0))
    ∧ (0 ≤ monthlyRate gdf startTs endTs
      ∧ ((gdf.filter fun r => isActiveAt r startTs).length = 0 →
          monthlyRate gdf startTs endTs = 0)) := by
  refine ⟨⟨?_, ?_⟩, ⟨?_, ?_⟩, ?_, ?_⟩
  · rw [yearGroupRecord_rate]
    split
    · positivity
    · exact le_refl 0
  · intro h
    rw [yearGroupRecord_rate, if_neg (by omega)]
  · rw [currentYearGroupRecord_rate]
    split
    · positivity
    · exact le_refl 0
  · intro h
    rw [currentYearGroupRecord_rate, if_neg (by omega)]
  · unfold monthlyRate
    dsimp only
    split
    · positivity
    · exact le_refl 0
  · intro h
    unfold monthlyRate
    dsimp only
    rw [if_neg (by omega)]

/-- Witness for the amended C3: the yearly rate of an empty dataset is
exactly 0. -/
theorem c3_amended_witness :
    (yearGroupRecord [] [] "Website" 2025 0 100).jahresChurn = 0 :=
  (c3_amended_rate_nonneg_and_zero_guard [] [] "Website" 2025 0 100 [] 0 0).1.2
    (by decide)

/-- Counterexample to C4 as stated: on the score column `[10, 10, 5]` the
`rank(method='min')` column is `[1, 1, 3]`: the two tied scores share
rank 1, but the next distinct score receives rank 3, which is the tied
rank plus 2, not plus 1, so the ranking has a gap and is not dense. -/
theorem c4_dense_rank_counterexample :
    rangColumn [10, 10, 5] = [1, 1, 3]
    ∧ performanceRankMin [10, 10, 5] 5 ≠ performanceRankMin [10, 10, 5] 10 + 1 := by
  constructor
  · decide
  · decide

/-- Counting scores at least `s` splits into strictly greater and tied. -/
lemma count_le_split (l : List ℚ) (s : ℚ) :
    (l.filter fun u => decide (s ≤ u)).length
      = (l.filter fun u => decide (s < u)).length
        + (l.filter fun u => u == s).length := by
  induction l with
  | nil => rfl
  | cons a t ih =>
    rcases lt_trichotomy s a with h | h | h
    · have h1 : decide (s ≤ a) = true := by simp [le_of_lt h]
      have h2 : decide (s < a) = true := by simp [h]
      have h3 : (a == s) = false := by simp [ne_of_gt h]
      simp [List.filter_cons, h1, h2, h3]
      omega
    · have h1 : decide (s ≤ a) = true := by simp [le_of_eq h]
      have h2 : decide (s < a) = false := by simp [h]
      have h3 : (a == s) = true := by simp [h.symm]
      simp [List.filter_cons, h1, h2, h3]
      omega
    · have h1 : decide (s ≤ a) = false := by simp [not_le.mpr h]
      have h2 : decide (s < a) = false := by simp [not_lt.mpr (le_of_lt h)]
      have h3 : (a == s) = false := by simp [ne_of_lt h]
      simp [List.filter_cons, h1, h2, h3]
      omega

/-- C4 amended: the `Rang` column is a minimum-method competition rank on
the descending performance scores: equal scores always receive equal
ranks, and the next distinct lower score receives the tied rank plus the
number of scores tied at the higher value, so gaps appear after ties. -/
theorem c4_amended_min_rank_gap (scores : List ℚ) (s t : ℚ)
    (hst : t < s) (hnext : ∀ u ∈ scores, t < u → s ≤ u) :
    (∀ u v : ℚ, u = v →
        performanceRankMin scores u = performanceRankMin scores v)
    ∧ performanceRankMin scores t
        = performanceRankMin scores s
          + (scores.filter fun u => u == s).length := by
  refine ⟨fun _ _ huv => by rw [huv], ?_⟩
  unfold performanceRankMin
  have hft : (scores.filter fun u => decide (t < u))
      = scores.filter fun u => decide (s ≤ u) := by
    refine List.filter_congr fun u hu => ?_
    by_cases h : t < u
    · have h2 : s ≤ u := hnext u hu h
      simp [h, h2]
    · have h2 : ¬ (s ≤ u) := fun hle => h (lt_of_lt_of_le hst hle)
      simp [h, h2]
  rw [hft, count_le_split]
  omega

/-- Witness for the amended C4: on `[10, 10, 5]` the rank of 5 equals the
rank of 10 plus the 2 scores tied at 10. -/
theorem c4_amended_min_rank_gap_witness :
    performanceRankMin [10, 10, 5] 5
      = performanceRankMin [10, 10, 5] 10
        + (([10, 10, 5] : List ℚ).filter fun u => u == (10 : ℚ)).length :=
  (c4_amended_min_rank_gap [10, 10, 5] 10 5 (by decide) (by decide)).2

/-- Per-row waterfall identity, by construction of the row. -/
lemma waterfall_mem_identity {df : List Row} {ce : List ChurnEvent}
    {yStart yEnd : Int} {w : WaterfallRow}
    (hw : w ∈ calculate_waterfall_data df ce yStart yEnd) :
    w.ende = (w.start : Int) + (w.neukunden : Int) + w.verluste := by
  unfold calculate_waterfall_data at hw
  rcases List.mem_filterMap.mp hw with ⟨g, hg, hfg⟩
  dsimp only at hfg
  split at hfg
  · exact absurd hfg (by simp)
  · simp only [Option.some.injEq] at hfg
    subst hfg
    dsimp only
    ring

/-- Rowwise linear identities lift to the column sums. -/
lemma waterfall_sum_identity (l : List WaterfallRow)
    (h : ∀ w ∈ l, w.ende = (w.start : Int) + (w.neukunden : Int) + w.verluste) :
    (l.map fun w => w.ende).sum
      = (l.map fun w => (w.start : Int)).sum
        + (l.map fun w => (w.neukunden : Int)).sum
        + (l.map fun w => w.verluste).sum := by
  induction l with
  | nil => simp
  | cons a t ih =>
    have ha := h a (List.mem_cons_self a t)
    have ht := ih fun w hw => h w (List.mem_cons_of_mem a hw)
    simp only [List.map_cons, List.sum_cons, ha, ht]
    ring

/-- C6: every waterfall row satisfies the reconciliation identity
ending = start + new − churned exactly in integer arithmetic (the stored
`verluste` column is the negated churn total), and the identity also
holds for the column sums across all group rows. -/
theorem c6_waterfall_reconciliation (df : List Row) (ce : List ChurnEvent)
    (yStart yEnd : Int) (w : WaterfallRow)
    (hw : w ∈ calculate_waterfall_data df ce yStart yEnd) :
    w.ende = (w.start : Int) + (w.neukunden : Int) + w.verluste
    ∧ ((calculate_waterfall_data df ce yStart yEnd).map fun v => v.ende).sum
        = ((calculate_waterfall_data df ce yStart yEnd).map fun v => (v.start : Int)).sum
          + ((calculate_waterfall_data df ce yStart yEnd).map fun v => (v.neukunden : Int)).sum
          + ((calculate_waterfall_data df ce yStart yEnd).map fun v => v.verluste).sum :=
  ⟨waterfall_mem_identity hw,
   waterfall_sum_identity _ fun _ hv => waterfall_mem_identity hv⟩

/-- Witness for C6 on `dfC6`: the emitted Website row is
start 1, new 0, losses 0, end 1, and 1 = 1 + 0 + 0. -/
theorem c6_waterfall_reconciliation_witness :
    (⟨"Website", 1, 0, 0, 1⟩ : WaterfallRow).ende
      = ((⟨"Website", 1, 0, 0, 1⟩ : WaterfallRow).start : Int)
        + ((⟨"Website", 1, 0, 0, 1⟩ : WaterfallRow).neukunden : Int)
        + (⟨"Website", 1, 0, 0, 1⟩ : WaterfallRow).verluste :=
  (c6_waterfall_reconciliation dfC6 [] 0 10 ⟨"Website", 1, 0, 0, 1⟩ (by decide)).1

/-- Counterexample to C7 as stated: with one Website contract whose
recorded end date 365 lies after today = 180, the current-year table
counts it as churned (no upper date bound in the source), while the
yearly table for the same window [0, today] does not; moreover for an
empty dataset the current-year table still has one zero row per relevant
group while the yearly table has none. -/
theorem c7_current_vs_yearly_counterexample :
    (currentYearGroupRecord dfC7 (analyze_customer_journey dfC7 90).1
        "Website" 0).verluste = 1
    ∧ (yearGroupRecord dfC7 (analyze_customer_journey dfC7 90).1
        "Website" 2025 0 180).gesamtChurned = 0
    ∧ (currentYearGroupRecord dfC7 (analyze_customer_journey dfC7 90).1
        "Website" 0).aktiveKunden
      = (yearGroupRecord dfC7 (analyze_customer_journey dfC7 90).1
          "Website" 2025 0 180).gesamtAktiv
    ∧ (calculate_current_year_churn [] [] 0).length = 7
    ∧ (yearly_churn_year [] [] 2025 0 180).length = 0 := by
  refine ⟨by decide, by decide, by decide, by decide, by decide⟩

/-- C7 amended: per product group the current-year loop and the yearly
loop with window [Jan 1, today] always agree on the active count, and
they also agree on the churned count and the rate provided no churn event
of the group is dated after today and no reseller contract of the group
ends after today; without that proviso the counts can differ because the
current-year filters have no upper date bound, and groups with no rows
get a zero row only in the current-year table. -/
theorem c7_amended_current_vs_yearly (df : List Row) (ce : List ChurnEvent)
    (group : String) (year yStart today : Int)
    (hce : ∀ c ∈ ce, c.productGroup = group → c.churnDatum ≤ today)
    (hres : ∀ r ∈ df, r.productGroup = group → isReseller r = true →
        (r.ende.all fun e => decide (e ≤ today)) = true) :
    (currentYearGroupRecord df ce group yStart).aktiveKunden
        = (yearGroupRecord df ce group year yStart today).gesamtAktiv
    ∧ (currentYearGroupRecord df ce group yStart).verluste
        = (yearGroupRecord df ce group year yStart today).gesamtChurned
    ∧ (currentYearGroupRecord df ce group yStart).churnRate
        = (yearGroupRecord df ce group year yStart today).jahresChurn := by
  have hchurn : churnedKundenFrom ce group yStart
      = churnedKundenIn ce group yStart today := by
    unfold churnedKundenFrom churnedKundenIn
    have hfe : (ce.filter fun c =>
          c.productGroup == group && decide (yStart ≤ c.churnDatum))
        = ce.filter fun c =>
          c.productGroup == group && decide (yStart ≤ c.churnDatum)
            && decide (c.churnDatum ≤ today) := by
      refine List.filter_congr fun c hc => ?_
      by_cases h1 : c.productGroup = group
      · have h2 : c.churnDatum ≤ today := hce c hc h1
        simp [h1, h2]
      · simp [h1]
    rw [hfe]
  have hresEq : ((df.filter fun r => r.productGroup == group).filter
        isReseller).filter (fun r => endedFrom r yStart)
      = ((df.filter fun r => r.productGroup == group).filter
          isReseller).filter (fun r => endedIn r yStart today) := by
    refine List.filter_congr fun r hr => ?_
    have hrg : r.productGroup = group := by
      simpa using List.of_mem_filter (List.mem_of_mem_filter hr)
    have hrres : isReseller r = true := List.of_mem_filter hr
    have hrdf : r ∈ df :=
      List.mem_of_mem_filter (List.mem_of_mem_filter hr)
    have hall := hres r hrdf hrg hrres
    unfold endedFrom endedIn
    cases he : r.ende with
    | none => rfl
    | some e =>
      rw [he] at hall
      simp only [Option.all_some, decide_eq_true_eq] at hall
      by_cases h3 : yStart ≤ e <;> simp [h3, hall]
  refine ⟨rfl, ?_, ?_⟩
  · show churnedKundenFrom ce group yStart
        + (((df.filter fun r => r.productGroup == group).filter
            isReseller).filter fun r => endedFrom r yStart).length
      = churnedKundenIn ce group yStart today
        + (((df.filter fun r => r.productGroup == group).filter
            isReseller).filter fun r => endedIn r yStart today).length
    rw [hchurn, hresEq]
  · rw [currentYearGroupRecord_rate, yearGroupRecord_rate]
    have hA : (currentYearGroupRecord df ce group yStart).aktiveKunden
        = (yearGroupRecord df ce group year yStart today).gesamtAktiv := rfl
    have hC : (currentYearGroupRecord df ce group yStart).verluste
        = (yearGroupRecord df ce group year yStart today).gesamtChurned := by
      show churnedKundenFrom ce group yStart
          + (((df.filter fun r => r.productGroup == group).filter
              isReseller).filter fun r => endedFrom r yStart).length
        = churnedKundenIn ce group yStart today
          + (((df.filter fun r => r.productGroup == group).filter
              isReseller).filter fun r => endedIn r yStart today).length
      rw [hchurn, hresEq]
    rw [hA, hC]

/-- Witness for the amended C7 on `dfC7w` (all end dates at most
today = 180): the two loops agree on all three numbers. -/
theorem c7_amended_current_vs_yearly_witness :
    (currentYearGroupRecord dfC7w (analyze_customer_journey dfC7w 90).1
        "Website" 0).aktiveKunden
      = (yearGroupRecord dfC7w (analyze_customer_journey dfC7w 90).1
          "Website" 2025 0 180).gesamtAktiv
    ∧ (currentYearGroupRecord dfC7w (analyze_customer_journey dfC7w 90).1
        "Website" 0).verluste
      = (yearGroupRecord dfC7w (analyze_customer_journey dfC7w 90).1
          "Website" 2025 0 180).gesamtChurned
    ∧ (currentYearGroupRecord dfC7w (analyze_customer_journey dfC7w 90).1
        "Website" 0).churnRate
      = (yearGroupRecord dfC7w (analyze_customer_journey dfC7w 90).1
          "Website" 2025 0 180).jahresChurn :=
  c7_amended_current_vs_yearly dfC7w (analyze_customer_journey dfC7w 90).1
    "Website" 2025 0 180 (by decide) (by decide)

/-- C8: a salesperson appearing in the dataset gets a row in the extended
performance table (and hence in the ranking and the summary derived from
it) exactly when the count of distinct customers active at the start of
the year is at least `MIN_ACTIVE_CUSTOMERS`; below the threshold the
salesperson is skipped entirely. -/
theorem c8_min_active_threshold (df : List Row) (yStart : Int) (v : String)
    (hv : v ∈ (df.map sellerOf).dedup) :
    (∃ rec ∈ analyze_sales_performance_extended df yStart,
        rec.verkaeufer = v)
      ↔ MIN_ACTIVE_CUSTOMERS ≤ nuniqueKunden
          ((df.filter fun r => sellerOf r == v).filter
            fun r => isActiveAt r yStart) := by
  unfold analyze_sales_performance_extended
  constructor
  · rintro ⟨rec, hrec, hveq⟩
    rcases List.mem_filterMap.mp hrec with ⟨v2, _, hfv2⟩
    dsimp only at hfv2
    split at hfv2
    · exact absurd hfv2 (by simp)
    · rename_i hge
      simp only [Option.some.injEq] at hfv2
      have hrv : rec.verkaeufer = v2 := by rw [← hfv2]
      rw [hrv] at hveq
      subst hveq
      omega
  · intro hge
    have hne : ¬ (nuniqueKunden ((df.filter fun r => sellerOf r == v).filter
        fun r => isActiveAt r yStart) < MIN_ACTIVE_CUSTOMERS) := by omega
    refine ⟨{ verkaeufer := v
              aktiveKunden := nuniqueKunden ((df.filter fun r => sellerOf r == v).filter
                fun r => isActiveAt r yStart)
              neukunden := nuniqueKunden ((df.filter fun r => sellerOf r == v).filter
                fun r =>
                  match r.beginn with
                  | some b2 => decide (yStart ≤ b2)
                  | none => false)
              verloreneKunden := nuniqueKunden ((df.filter fun r => sellerOf r == v).filter
                fun r => endedFrom r yStart)
              churnRate := if 0 < nuniqueKunden ((df.filter fun r => sellerOf r == v).filter
                    fun r => isActiveAt r yStart)
                then (nuniqueKunden ((df.filter fun r => sellerOf r == v).filter
                      fun r => endedFrom r yStart) : ℚ)
                    / (nuniqueKunden ((df.filter fun r => sellerOf r == v).filter
                      fun r => isActiveAt r yStart) : ℚ) * 100
                else 0 },
      List.mem_filterMap.mpr ⟨v, hv, ?_⟩, rfl⟩
    dsimp only
    rw [if_neg hne]

/-- Witness for C8 on `df50`: salesperson A has 50 active customers and
appears in the table. -/
theorem c8_min_active_threshold_witness :
    ∃ rec ∈ analyze_sales_performance_extended df50 0,
      rec.verkaeufer = "A" :=
  (c8_min_active_threshold df50 0 "A" (by decide)).mpr (by decide)

/-- C9: the preprocessing coercions are total and local: a failing date
parse yields a `NaT` start or end instead of an error, a failing customer
number parse yields the sentinel 0, and a row whose end date is `NaT` is
skipped by the journey classifier rather than raising. -/
theorem c9_coercion_totality (parseDate parseNum : String → Except String Int)
    (b e k : String) (grace kunde : Int) (group : String)
    (later : List Row) (row : Row) :
    ((∃ msg, parseDate e = .error msg) →
        (parseRowCols parseDate parseNum k b e).ende = none)
    ∧ ((∃ msg, parseDate b = .error msg) →
        (parseRowCols parseDate parseNum k b e).beginn = none)
    ∧ ((∃ msg, parseNum k = .error msg) →
        (parseRowCols parseDate parseNum k b e).kundennummer = 0)
    ∧ (row.ende = none → rowEvent grace kunde group later row = none) := by
  refine ⟨?_, ?_, ?_, ?_⟩
  · rintro ⟨msg, hmsg⟩
    simp [parseRowCols, coerceDate, hmsg]
  · rintro ⟨msg, hmsg⟩
    simp [parseRowCols, coerceDate, hmsg]
  · rintro ⟨msg, hmsg⟩
    simp [parseRowCols, coerceKundennummer, hmsg]
  · intro hnone
    unfold rowEvent
    rw [hnone]

/-- Witness for C9 with the always-failing parser: both dates become
`NaT`, the customer number becomes 0, and a `NaT`-ended row produces no
journey event. -/
theorem c9_coercion_totality_witness :
    (parseRowCols failParse failParse "abc" "x" "y").ende = none
    ∧ (parseRowCols failParse failParse "abc" "x" "y").beginn = none
    ∧ (parseRowCols failParse failParse "abc" "x" "y").kundennummer = 0
    ∧ rowEvent 90 7 "Website" [] ⟨7, "Website", some 0, none, none⟩ = none := by
  obtain ⟨h1, h2, h3, h4⟩ := c9_coercion_totality failParse failParse
    "x" "y" "abc" 90 7 "Website" [] ⟨7, "Website", some 0, none, none⟩
  exact ⟨h1 ⟨"unparseable", rfl⟩, h2 ⟨"unparseable", rfl⟩,
    h3 ⟨"unparseable", rfl⟩, h4 rfl⟩

end EdelweissChurn
